import Mathlib

/-
Shallow embedding of the dual-store consistency and aggregation engine of
Evasio-Nova (src/src/firebase/wiki.ts).

The two Firestore databases are modelled as one explicit state record `DB`:
the Content Store collection `wikiArticles`, the Summary Store collection
`articleSummaries`, the two aggregate singleton documents `counts/article`
and `counts/author`, and the cache. Documents are association lists keyed
by the document id; `setDoc` is insert-or-replace, `updateDoc` requires the
document to exist, `deleteDoc` removes every entry with the key.

Timestamps (`serverTimestamp()` and `Date.now()`) are drawn from a logical
clock `now` carried in the state; `addDoc` id generation is modelled by a
counter `nextId`. Numeric scores are rationals. The external score function
`calculateArticleScore` (its source lives outside this module) is a section
parameter, per its documented contract: pure and deterministic.

Failure injection: a `FailCfg` record says which store operations fail, so
that compensation and error paths of the coordinator can be exercised.
Operations return the final state together with an `Except` outcome; a
thrown JS error is `Except.error`, a caught-and-swallowed error leaves the
outcome `ok`.
-/

namespace EvasioNova

/-- Content Store record (main DB collection `wikiArticles`). The rating
counters and the score are deleted from the object before every write, so
the stored record has no such fields. -/
structure Article where
  title : String
  description : String
  content : String
  tags : List String
  author : String
  authorId : String
  imageUrl : Option String
  imageId : Option String
  deleteUrl : Option String
  date : Nat
  lastUpdated : Nat
  deriving Repr, DecidableEq

/-- Summary Store record (search DB collection `articleSummaries`), the sole
owner of the rating counters and of `articleScore`. -/
structure Summary where
  id : String
  title : String
  description : String
  tags : List String
  author : String
  authorId : String
  imageUrl : Option String
  date : Nat
  lastUpdated : Nat
  usefulCount : Nat
  likeCount : Nat
  dislikeCount : Nat
  articleScore : Rat
  deriving Repr, DecidableEq

/-- Per-article entry of the `counts/article` aggregate singleton. The like
and useful paths create entries without a `dislikeCount` field, hence the
`Option`. -/
structure ArticleCountsEntry where
  likeCount : Nat
  usefulCount : Nat
  dislikeCount : Option Nat
  deriving Repr, DecidableEq

/-- Per-author entry of the `counts/author` aggregate singleton. Note that
no `averageScore` field exists here: the stored aggregate never holds it. -/
structure AuthorCountsEntry where
  likeCount : Nat
  usefulCount : Nat
  articleScoreSum : Rat
  articleCount : Nat
  deriving Repr, DecidableEq

/-- An aggregate singleton document: a mapping keyed by article or author id
plus a `lastUpdated` stamp. -/
structure CountsDoc (α : Type) where
  counts : List (String × α)
  lastUpdated : Nat
  deriving Repr, DecidableEq

/-- Cache entry for the per-article counts key.
Modelled from the spec: the cache manager implementation
(`utils/cacheManager`) is not under src/; section 4.4 describes a TTL
key/value cache holding copies of Summary Store reads, refreshed or
invalidated by writers. Expiry is irrelevant to the claims settled here, so
an entry is just the cached counters and score. -/
structure CacheVal where
  likeCount : Nat
  usefulCount : Nat
  articleScore : Rat
  deriving Repr, DecidableEq

/-- The whole two-database state. -/
structure DB where
  wikiArticles : List (String × Article)
  articleSummaries : List (String × Summary)
  articleCounts : Option (CountsDoc ArticleCountsEntry)
  authorCounts : Option (CountsDoc AuthorCountsEntry)
  cache : List (String × CacheVal)
  now : Nat
  nextId : Nat
  deriving Repr, DecidableEq

/-- Errors surfaced by the operations (the JS code throws `Error` values;
only the distinctions observable through the claims are kept). -/
inductive Err where
  | notFound
  | permissionDenied
  | mainWriteFailed
  | summaryWriteFailed
  | updateTargetMissing
  | readFailed
  deriving Repr, DecidableEq

/-- Failure-injection schedule for the store operations. -/
structure FailCfg where
  mainAddFails : Bool
  summarySetFails : Bool
  compensationDeleteFails : Bool
  mainDeleteFails : Bool
  summaryDeleteFails : Bool
  summaryReadFails : Bool
  authorCountsReadFails : Bool
  deriving Repr, DecidableEq

/-- The all-operations-succeed schedule. -/
def noFail : FailCfg := ⟨false, false, false, false, false, false, false⟩

/-- First-match lookup in an association list (a Firestore collection). -/
def alookup {α : Type} : List (String × α) → String → Option α
  | [], _ => none
  | (k, v) :: t, k2 => if k = k2 then some v else alookup t k2

/-- `setDoc`: replace the first entry with the key, or append a fresh one. -/
def aset {α : Type} (k : String) (v : α) : List (String × α) → List (String × α)
  | [] => [(k, v)]
  | (k2, v2) :: t => if k2 = k then (k, v) :: t else (k2, v2) :: aset k v t

/-- `deleteDoc`: remove every entry with the key (succeeds when absent). -/
def aremove {α : Type} (k : String) : List (String × α) → List (String × α)
  | [] => []
  | (k2, v) :: t => if k2 = k then aremove k t else (k2, v) :: aremove k t

/-- `addDoc` id generation. -/
def genId (n : Nat) : String := "doc" ++ toString n

/-- The article view returned by `getArticleById`: the Content Store record
with the rating fields patched in from the Summary Store when the summary
document exists (`none` models the JS `undefined` left behind when it does
not). -/
structure FetchedArticle where
  main : Article
  likeCount : Option Nat
  usefulCount : Option Nat
  dislikeCount : Option Nat
  articleScore : Option Rat
  deriving Repr, DecidableEq

/-- `getArticleById`: read the main record, then complement the rating data
from the search DB. -/
def getArticleById (s : DB) (id : String) : Option FetchedArticle :=
  match alookup s.wikiArticles id with
  | none => none
  | some a =>
    match alookup s.articleSummaries id with
    | some sum =>
      some ⟨a, some sum.likeCount, some sum.usefulCount, some sum.dislikeCount,
        some sum.articleScore⟩
    | none => some ⟨a, none, none, none, none⟩

/-- Argument of `createArticle` (`Omit<WikiArticle, "id">`): the caller may
supply rating fields; `createArticle` strips them from the main record. -/
structure ArticleInput where
  title : String
  description : String
  content : String
  tags : List String
  author : String
  authorId : String
  imageUrl : Option String
  imageId : Option String
  deleteUrl : Option String
  date : Option Nat
  usefulCount : Nat
  likeCount : Nat
  dislikeCount : Option Nat
  articleScore : Option Rat
  deriving Repr, DecidableEq

-- The external score function contract (`calculateArticleScore`): content
-- body and the three counts give a numeric score; pure and deterministic,
-- so it is a section parameter of every operation that scores an article.
variable (calculateArticleScore : String → Nat → Nat → Nat → Rat)

/-- `updateAuthorScoreOnArticleCreate`: incremental fold of a new article
into the author aggregate — add the initial score to `articleScoreSum` and
bump `articleCount`. The read-modify-write of the whole map makes the
`merge: true` write equivalent to replacing the `counts` field. -/
def updateAuthorScoreOnArticleCreate (authorId : String) (articleScore : Rat)
    (s : DB) : DB :=
  match s.authorCounts with
  | some d =>
    let cur := (alookup d.counts authorId).getD ⟨0, 0, 0, 0⟩
    let upd : AuthorCountsEntry :=
      { cur with articleScoreSum := cur.articleScoreSum + articleScore,
                 articleCount := cur.articleCount + 1 }
    { s with authorCounts := some ⟨aset authorId upd d.counts, s.now⟩ }
  | none =>
    { s with authorCounts := some ⟨[(authorId, ⟨0, 0, articleScore, 1⟩)], s.now⟩ }

/-- The scan inside `updateAuthorScore`: fold over every summary of the
author, substituting the just-computed score for the article being updated
in place of its on-disk value. -/
def scanAuthorArticles (l : List (String × Summary)) (authorId articleId : String)
    (newScore : Rat) : AuthorCountsEntry :=
  l.foldl (fun acc p =>
    if p.2.authorId = authorId then
      { likeCount := acc.likeCount + p.2.likeCount,
        usefulCount := acc.usefulCount + p.2.usefulCount,
        articleScoreSum := acc.articleScoreSum +
          (if p.1 = articleId then newScore else p.2.articleScore),
        articleCount := acc.articleCount + 1 }
    else acc) ⟨0, 0, 0, 0⟩

/-- From-scratch recomputation of an author aggregate over the on-disk
summaries, following the words of the spec (sum the stored `articleScore`,
`likeCount` and `usefulCount` of every summary of the author, count the
summaries). Used only as the comparison point for the self-healing
invariant. -/
def recomputeAuthorAggregate (l : List (String × Summary)) (authorId : String) :
    AuthorCountsEntry :=
  l.foldl (fun acc p =>
    if p.2.authorId = authorId then
      { likeCount := acc.likeCount + p.2.likeCount,
        usefulCount := acc.usefulCount + p.2.usefulCount,
        articleScoreSum := acc.articleScoreSum + p.2.articleScore,
        articleCount := acc.articleCount + 1 }
    else acc) ⟨0, 0, 0, 0⟩

/-- `updateAuthorScore`: full recomputation — scan every summary of the
author and overwrite the author entry of `counts/author` wholesale. -/
def updateAuthorScore (authorId articleId : String) (newScore : Rat) (s : DB) : DB :=
  let agg := scanAuthorArticles s.articleSummaries authorId articleId newScore
  let cs := match s.authorCounts with
    | some d => d.counts
    | none => []
  { s with authorCounts := some ⟨aset authorId agg cs, s.now⟩ }

/-- `createArticle`: strip the rating fields, write the main record, write
the summary (with the compensating delete of the main record when that
write fails), then fold the author aggregate. -/
def createArticle (cfg : FailCfg) (input : ArticleInput) (s : DB) :
    DB × Except Err String :=
  let articleScore := calculateArticleScore input.content input.likeCount
    input.usefulCount (input.dislikeCount.getD 0)
  if cfg.mainAddFails then (s, .error .mainWriteFailed)
  else
    let id := genId s.nextId
    let mainRec : Article :=
      { title := input.title, description := input.description,
        content := input.content, tags := input.tags,
        author := input.author, authorId := input.authorId,
        imageUrl := input.imageUrl, imageId := input.imageId,
        deleteUrl := input.deleteUrl,
        date := input.date.getD s.now, lastUpdated := s.now }
    let s1 : DB :=
      { s with wikiArticles := aset id mainRec s.wikiArticles,
               nextId := s.nextId + 1 }
    if cfg.summarySetFails then
      if cfg.compensationDeleteFails then
        -- the compensating delete also failed: the orphan is logged only
        (s1, .error .summaryWriteFailed)
      else
        ({ s1 with wikiArticles := aremove id s1.wikiArticles },
          .error .summaryWriteFailed)
    else
      let sumRec : Summary :=
        { id := id, title := input.title, description := input.description,
          tags := input.tags, author := input.author,
          authorId := input.authorId, imageUrl := input.imageUrl,
          date := input.date.getD s.now, lastUpdated := s.now,
          usefulCount := input.usefulCount, likeCount := input.likeCount,
          dislikeCount := input.dislikeCount.getD 0,
          articleScore := articleScore }
      let s2 : DB :=
        { s1 with articleSummaries := aset id sumRec s1.articleSummaries }
      (updateAuthorScoreOnArticleCreate input.authorId articleScore s2, .ok id)

/-- `Partial<WikiArticle>` update payload: `some` is a supplied field. -/
structure UpdateData where
  title : Option String
  description : Option String
  content : Option String
  tags : Option (List String)
  author : Option String
  authorId : Option String
  imageUrl : Option String
  imageId : Option String
  deleteUrl : Option String
  date : Option Nat
  usefulCount : Option Nat
  likeCount : Option Nat
  dislikeCount : Option Nat
  articleScore : Option Rat
  deriving Repr, DecidableEq

/-- The content the score is recomputed from: `updateData.content ||
article.content` — a supplied empty string is falsy in JS and falls back to
the existing content. -/
def effectiveNewContent (u : UpdateData) (old : String) : String :=
  match u.content with
  | some c => if c = "" then old else c
  | none => old

/-- Apply the main-DB `updateDoc` payload: the supplied fields minus the
rating fields, plus the refreshed `lastUpdated`. -/
def applyMainUpdate (a : Article) (u : UpdateData) (now : Nat) : Article :=
  { title := u.title.getD a.title,
    description := u.description.getD a.description,
    content := u.content.getD a.content,
    tags := u.tags.getD a.tags,
    author := u.author.getD a.author,
    authorId := u.authorId.getD a.authorId,
    imageUrl := match u.imageUrl with | some v => some v | none => a.imageUrl,
    imageId := match u.imageId with | some v => some v | none => a.imageId,
    deleteUrl := match u.deleteUrl with | some v => some v | none => a.deleteUrl,
    date := u.date.getD a.date,
    lastUpdated := now }

/-- Apply the summary `updateDoc` payload: the supplied fields among title,
description, tags, author and imageUrl, plus `lastUpdated` and the fresh
`articleScore`. -/
def applySummaryUpdate (sum0 : Summary) (u : UpdateData) (now : Nat)
    (newScore : Rat) : Summary :=
  { sum0 with
    title := u.title.getD sum0.title,
    description := u.description.getD sum0.description,
    tags := u.tags.getD sum0.tags,
    author := u.author.getD sum0.author,
    imageUrl := match u.imageUrl with | some v => some v | none => sum0.imageUrl,
    lastUpdated := now,
    articleScore := newScore }

/-- How many of the summary-relevant fields the payload supplies
(`Object.keys` of the summary update object, minus `lastUpdated` and
`articleScore`). -/
def suppliedRelevantCount (u : UpdateData) : Nat :=
  (if u.title.isSome then 1 else 0) + (if u.description.isSome then 1 else 0) +
  (if u.tags.isSome then 1 else 0) + (if u.author.isSome then 1 else 0) +
  (if u.imageUrl.isSome then 1 else 0)

/-- `updateArticle`: fail with not-found when no main record exists, read
the current counters from the summary, recompute the score from the
effective new content, update the main record, update the summary when the
payload has more than the `lastUpdated` key (it always does, since the
score is always included), then recompute the author aggregate. -/
def updateArticle (id : String) (u : UpdateData) (s : DB) : DB × Except Err Unit :=
  match getArticleById s id with
  | none => (s, .error .notFound)
  | some fa =>
    let summaryData := alookup s.articleSummaries id
    let currentLikes := (summaryData.map Summary.likeCount).getD 0
    let currentUseful := (summaryData.map Summary.usefulCount).getD 0
    let currentDislikes := (summaryData.map Summary.dislikeCount).getD 0
    let newScore := calculateArticleScore
      (effectiveNewContent u fa.main.content) currentLikes currentUseful
      currentDislikes
    let mainStore := aset id (applyMainUpdate fa.main u s.now) s.wikiArticles
    let s1 : DB := { s with wikiArticles := mainStore }
    if 2 + suppliedRelevantCount u > 1 then
      -- updateDoc on the summary throws when the document is missing
      match alookup s1.articleSummaries id with
      | none => (s1, .error .updateTargetMissing)
      | some sum0 =>
        let sumStore := aset id (applySummaryUpdate sum0 u s1.now newScore) s1.articleSummaries
        let s2 : DB := { s1 with articleSummaries := sumStore }
        if fa.main.authorId = "" then (s2, .ok ())
        else (updateAuthorScore fa.main.authorId id newScore s2, .ok ())
    else
      if fa.main.authorId = "" then (s1, .ok ())
      else (updateAuthorScore fa.main.authorId id newScore s1, .ok ())

/-- `deleteArticle`: delete the main record first; a failing summary delete
is logged and swallowed, never rolled back. -/
def deleteArticle (cfg : FailCfg) (id : String) (s : DB) : DB × Except Err Unit :=
  if cfg.mainDeleteFails then (s, .error .mainWriteFailed)
  else
    let s1 : DB := { s with wikiArticles := aremove id s.wikiArticles }
    if cfg.summaryDeleteFails then (s1, .ok ())
    else ({ s1 with articleSummaries := aremove id s1.articleSummaries }, .ok ())

/-- Descending insertion by `usefulCount` (the default sort field of the
summary listing). -/
def insertByUseful (p : String × Summary) :
    List (String × Summary) → List (String × Summary)
  | [] => [p]
  | q :: t =>
    if q.2.usefulCount < p.2.usefulCount then p :: q :: t
    else q :: insertByUseful p t

/-- `getAllArticleSummaries` with the default sort field `usefulCount`:
every summary, ordered by descending useful count. -/
def getAllArticleSummaries (s : DB) : List (String × Summary) :=
  s.articleSummaries.foldr insertByUseful []

/-- `getAllArticles`: list the summaries, then fetch each full article from
the main DB, keeping only the ids whose main record exists. -/
def getAllArticles (s : DB) : List (String × FetchedArticle) :=
  (getAllArticleSummaries s).filterMap fun p =>
    (getArticleById s p.1).map fun fa => (p.1, fa)

/-- The cache key used for the per-article counts. -/
def articleCountsKey (id : String) : String :=
  "article-counts:[\"" ++ id ++ "\"]"

/-- Modelled from the spec: `cacheManager.updateArticleCount` lives in the
cache manager whose source is not under src/; per section 4.4 it refreshes
the cached per-article counters and score. -/
def cacheUpdateArticleCount (id : String) (likeCount usefulCount : Nat)
    (articleScore : Rat) (s : DB) : DB :=
  { s with cache := aset (articleCountsKey id) ⟨likeCount, usefulCount, articleScore⟩ s.cache }

/-- Modelled from the spec: `deleteCache` (cache manager, source not under
src/) removes the entry for a key immediately, regardless of expiry. -/
def cacheDelete (key : String) (s : DB) : DB :=
  { s with cache := aremove key s.cache }

/-- Step 6 of the useful increment: the read-modify-write merge of the
`counts/article` shadow entry (bump `usefulCount`; when the singleton is
missing, rebuild the entry from a fresh article read — which already sees
the incremented summary, hence the JS truthiness test on the counter). -/
def usefulShadowStep (id : String) (s3 : DB) : DB :=
  match s3.articleCounts with
  | some d =>
    let cur := (alookup d.counts id).getD ⟨0, 0, none⟩
    let entry : ArticleCountsEntry := { cur with usefulCount := cur.usefulCount + 1 }
    { s3 with articleCounts := some ⟨aset id entry d.counts, s3.now⟩ }
  | none =>
    let articleData := getArticleById s3 id
    let newCount := match articleData with
      | some ad => match ad.usefulCount with
        | some n => if n = 0 then 1 else n + 1
        | none => 1
      | none => 1
    let likeCount := match articleData with
      | some ad => ad.likeCount.getD 0
      | none => 0
    { s3 with articleCounts := some ⟨[(id, ⟨likeCount, newCount, none⟩)], s3.now⟩ }

/-- Step 6 of the like increment, symmetric to `usefulShadowStep`. -/
def likeShadowStep (id : String) (s3 : DB) : DB :=
  match s3.articleCounts with
  | some d =>
    let cur := (alookup d.counts id).getD ⟨0, 0, none⟩
    let entry : ArticleCountsEntry := { cur with likeCount := cur.likeCount + 1 }
    { s3 with articleCounts := some ⟨aset id entry d.counts, s3.now⟩ }
  | none =>
    let articleData := getArticleById s3 id
    let newCount := match articleData with
      | some ad => match ad.likeCount with
        | some n => if n = 0 then 1 else n + 1
        | none => 1
      | none => 1
    let usefulCount := match articleData with
      | some ad => ad.usefulCount.getD 0
      | none => 0
    { s3 with articleCounts := some ⟨[(id, ⟨newCount, usefulCount, none⟩)], s3.now⟩ }

/-- The dislike variant of the shadow-map merge (tracks `dislikeCount`). -/
def dislikeShadowStep (id : String) (s2 : DB) : DB :=
  match s2.articleCounts with
  | some d =>
    let cur := (alookup d.counts id).getD ⟨0, 0, none⟩
    let entry : ArticleCountsEntry := { cur with dislikeCount := some (cur.dislikeCount.getD 0 + 1) }
    { s2 with articleCounts := some ⟨aset id entry d.counts, s2.now⟩ }
  | none =>
    let articleData := getArticleById s2 id
    let likeCount := match articleData with
      | some ad => ad.likeCount.getD 0
      | none => 0
    let usefulCount := match articleData with
      | some ad => ad.usefulCount.getD 0
      | none => 0
    { s2 with articleCounts := some ⟨[(id, ⟨likeCount, usefulCount, some 1⟩)], s2.now⟩ }

/-- The author-counts merge at the end of the useful increment: re-read the
`counts/author` singleton (which the preceding full recomputation has just
overwritten) and bump the author `usefulCount` once more on top of it. -/
def usefulAuthorMergeStep (id authorId : String) (s4 : DB) : DB :=
  match s4.authorCounts with
  | some d =>
    let cur := (alookup d.counts authorId).getD ⟨0, 0, 0, 0⟩
    let entry : AuthorCountsEntry := { cur with usefulCount := cur.usefulCount + 1 }
    { s4 with authorCounts := some ⟨aset authorId entry d.counts, s4.now⟩ }
  | none =>
    let articleScore := ((alookup s4.articleSummaries id).map Summary.articleScore).getD 0
    { s4 with authorCounts := some ⟨[(authorId, ⟨0, 1, articleScore, 1⟩)], s4.now⟩ }

/-- The author-counts merge at the end of the like increment. -/
def likeAuthorMergeStep (id authorId : String) (s4 : DB) : DB :=
  match s4.authorCounts with
  | some d =>
    let cur := (alookup d.counts authorId).getD ⟨0, 0, 0, 0⟩
    let entry : AuthorCountsEntry := { cur with likeCount := cur.likeCount + 1 }
    { s4 with authorCounts := some ⟨aset authorId entry d.counts, s4.now⟩ }
  | none =>
    let articleScore := ((alookup s4.articleSummaries id).map Summary.articleScore).getD 0
    { s4 with authorCounts := some ⟨[(authorId, ⟨1, 0, articleScore, 1⟩)], s4.now⟩ }

/-- `incrementUsefulCount`: load the article (fails when absent or with no
author id), bump the summary counter together with the recomputed score in
one write, recompute the author aggregate, refresh the cache entry, merge
the two aggregate singletons, and drop the cache key. -/
def incrementUsefulCount (id : String) (s : DB) : DB × Except Err Unit :=
  match getArticleById s id with
  | none => (s, .error .notFound)
  | some fa =>
    if fa.main.authorId = "" then (s, .error .notFound)
    else
      let authorId := fa.main.authorId
      -- the summary updateDoc throws when the summary document is missing
      match alookup s.articleSummaries id with
      | none => (s, .error .updateTargetMissing)
      | some sum =>
        let newUsefulCount := sum.usefulCount + 1
        let newScore := calculateArticleScore fa.main.content sum.likeCount
          newUsefulCount sum.dislikeCount
        let sumStore := aset id { sum with usefulCount := sum.usefulCount + 1, articleScore := newScore } s.articleSummaries
        let s1 : DB := { s with articleSummaries := sumStore }
        let s2 := updateAuthorScore authorId id newScore s1
        let s3 := cacheUpdateArticleCount id sum.likeCount newUsefulCount newScore s2
        let s4 := usefulShadowStep id s3
        let s5 := usefulAuthorMergeStep id authorId s4
        (cacheDelete (articleCountsKey id) s5, .ok ())

/-- `incrementLikeCount`, structurally identical with the like counter
moving. -/
def incrementLikeCount (id : String) (s : DB) : DB × Except Err Unit :=
  match getArticleById s id with
  | none => (s, .error .notFound)
  | some fa =>
    if fa.main.authorId = "" then (s, .error .notFound)
    else
      let authorId := fa.main.authorId
      match alookup s.articleSummaries id with
      | none => (s, .error .updateTargetMissing)
      | some sum =>
        let newLikeCount := sum.likeCount + 1
        let newScore := calculateArticleScore fa.main.content newLikeCount
          sum.usefulCount sum.dislikeCount
        let sumStore := aset id { sum with likeCount := sum.likeCount + 1, articleScore := newScore } s.articleSummaries
        let s1 : DB := { s with articleSummaries := sumStore }
        let s2 := updateAuthorScore authorId id newScore s1
        let s3 := cacheUpdateArticleCount id newLikeCount sum.usefulCount newScore s2
        let s4 := likeShadowStep id s3
        let s5 := likeAuthorMergeStep id authorId s4
        (cacheDelete (articleCountsKey id) s5, .ok ())

/-- `incrementDislikeCount`: gated on the caller-supplied admin flag, which
is checked before anything is read or written; the admin path bumps the
dislike counter with the recomputed score, recomputes the author aggregate
and merges only the `counts/article` shadow (no cache refresh and no extra
author merge on this path). -/
def incrementDislikeCount (id : String) (isAdmin : Bool) (s : DB) :
    DB × Except Err Unit :=
  if !isAdmin then (s, .error .permissionDenied)
  else
    match getArticleById s id with
    | none => (s, .error .notFound)
    | some fa =>
      if fa.main.authorId = "" then (s, .error .notFound)
      else
        let authorId := fa.main.authorId
        match alookup s.articleSummaries id with
        | none => (s, .error .updateTargetMissing)
        | some sum =>
          let newDislikeCount := sum.dislikeCount + 1
          let newScore := calculateArticleScore fa.main.content sum.likeCount
            sum.usefulCount newDislikeCount
          let sumStore := aset id { sum with dislikeCount := sum.dislikeCount + 1, articleScore := newScore } s.articleSummaries
          let s1 : DB := { s with articleSummaries := sumStore }
          let s2 := updateAuthorScore authorId id newScore s1
          let s3 := dislikeShadowStep id s2
          (cacheDelete (articleCountsKey id) s3, .ok ())

/-- Result shape of `getArticleRatings`. -/
structure Ratings where
  usefulCount : Nat
  likeCount : Nat
  deriving Repr, DecidableEq

/-- The body of `getArticleRatings` before its catch-all handler. -/
def getArticleRatingsRaw (cfg : FailCfg) (s : DB) (id : String) :
    Except Err Ratings :=
  if cfg.summaryReadFails then .error .readFailed
  else
    match alookup s.articleSummaries id with
    | some d => .ok ⟨d.usefulCount, d.likeCount⟩
    | none => .ok ⟨0, 0⟩

/-- `getArticleRatings`: any error from the read collapses to the all-zero
ratings object, so the caller never sees a failure. -/
def getArticleRatings (cfg : FailCfg) (s : DB) (id : String) : Ratings :=
  match getArticleRatingsRaw cfg s id with
  | .ok r => r
  | .error _ => ⟨0, 0⟩

/-- Result shape of `_getArticleCountById`. -/
structure ArticleCountView where
  likeCount : Nat
  usefulCount : Nat
  dislikeCount : Nat
  deriving Repr, DecidableEq

/-- The body of `_getArticleCountById` before its catch-all handler. -/
def getArticleCountByIdRaw (cfg : FailCfg) (s : DB) (id : String) :
    Except Err ArticleCountView :=
  if cfg.summaryReadFails then .error .readFailed
  else
    match alookup s.articleSummaries id with
    | some d => .ok ⟨d.likeCount, d.usefulCount, d.dislikeCount⟩
    | none => .ok ⟨0, 0, 0⟩

/-- `_getArticleCountById` (the uncached read the exported cached variant
wraps): absent summaries and failed reads both collapse to zero counts. -/
def getArticleCountById (cfg : FailCfg) (s : DB) (id : String) : ArticleCountView :=
  match getArticleCountByIdRaw cfg s id with
  | .ok r => r
  | .error _ => ⟨0, 0, 0⟩

/-- Result shape of `getAuthorCountById`, with the derived average. -/
structure AuthorCountView where
  likeCount : Nat
  usefulCount : Nat
  articleScoreSum : Rat
  articleCount : Nat
  averageScore : Rat
  deriving Repr, DecidableEq

/-- The body of `getAuthorCountById` before its catch-all handler: the
average is derived at read time from the stored sum and count (the stored
entry has no such field). -/
def getAuthorCountByIdRaw (cfg : FailCfg) (s : DB) (authorId : String) :
    Except Err AuthorCountView :=
  if cfg.authorCountsReadFails then .error .readFailed
  else
    match s.authorCounts with
    | some d =>
      let ad := (alookup d.counts authorId).getD ⟨0, 0, 0, 0⟩
      let averageScore :=
        if ad.articleCount > 0 then ad.articleScoreSum / (ad.articleCount : Rat)
        else 0
      .ok ⟨ad.likeCount, ad.usefulCount, ad.articleScoreSum, ad.articleCount, averageScore⟩
    | none => .ok ⟨0, 0, 0, 0, 0⟩

/-- `getAuthorCountById`: absent singleton, absent author entry and failed
reads all collapse to the all-zero view. -/
def getAuthorCountById (cfg : FailCfg) (s : DB) (authorId : String) :
    AuthorCountView :=
  match getAuthorCountByIdRaw cfg s authorId with
  | .ok r => r
  | .error _ => ⟨0, 0, 0, 0, 0⟩

/-- A concrete instance of the score-function contract used for concrete
runs: score = likeCount + usefulCount + dislikeCount. -/
def demoScore : String → Nat → Nat → Nat → Rat :=
  fun _ l u d => mkRat (Int.ofNat (l + u + d)) 1

/-- A concrete Content Store record. -/
def demoArticle : Article :=
  { title := "t", description := "d", content := "hello", tags := ["x"],
    author := "A", authorId := "a", imageUrl := none, imageId := none,
    deleteUrl := none, date := 0, lastUpdated := 0 }

/-- A concrete Summary Store record for the same article. -/
def demoSummary : Summary :=
  { id := "art", title := "t", description := "d", tags := ["x"],
    author := "A", authorId := "a", imageUrl := none, date := 0,
    lastUpdated := 0, usefulCount := 3, likeCount := 2, dislikeCount := 0,
    articleScore := mkRat 5 1 }

/-- A concrete state holding one article (id `art`) by author `a`. -/
def demoState : DB :=
  { wikiArticles := [("art", demoArticle)],
    articleSummaries := [("art", demoSummary)],
    articleCounts := none, authorCounts := none, cache := [],
    now := 7, nextId := 0 }

/-- The empty state. -/
def demoEmptyState : DB :=
  { wikiArticles := [], articleSummaries := [], articleCounts := none,
    authorCounts := none, cache := [], now := 0, nextId := 0 }

/-- A creation input carrying a nonzero rating count. -/
def demoInput : ArticleInput :=
  { title := "t", description := "d", content := "hello", tags := ["x"],
    author := "A", authorId := "a", imageUrl := none, imageId := none,
    deleteUrl := none, date := none, usefulCount := 0, likeCount := 1,
    dislikeCount := none, articleScore := none }

/-- An update payload supplying only a new content body. -/
def demoUpdate : UpdateData :=
  { title := none, description := none, content := some "bye", tags := none,
    author := none, authorId := none, imageUrl := none, imageId := none,
    deleteUrl := none, date := none, usefulCount := none, likeCount := none,
    dislikeCount := none, articleScore := none }

/-- Looking up the key just set yields the value just set. -/
theorem alookup_aset_self {α : Type} (k : String) (v : α) (l : List (String × α)) :
    alookup (aset k v l) k = some v := by
  induction l with
  | nil => simp [aset, alookup]
  | cons q t ih =>
    obtain ⟨k2, v2⟩ := q
    by_cases h : k2 = k
    · simp [aset, h, alookup]
    · simp [aset, h, alookup, ih]

/-- Setting one key leaves every other lookup unchanged. -/
theorem alookup_aset_ne {α : Type} (k k2 : String) (v : α) (l : List (String × α))
    (h : k ≠ k2) : alookup (aset k v l) k2 = alookup l k2 := by
  induction l with
  | nil => simp [aset, alookup, h]
  | cons q t ih =>
    obtain ⟨k3, v3⟩ := q
    by_cases h3 : k3 = k
    · subst h3; simp [aset, alookup, h, ih]
    · simp [aset, h3, alookup, ih]

/-- After a delete, the key is gone. -/
theorem alookup_aremove_self {α : Type} (k : String) (l : List (String × α)) :
    alookup (aremove k l) k = none := by
  induction l with
  | nil => simp [aremove, alookup]
  | cons q t ih =>
    obtain ⟨k2, v2⟩ := q
    by_cases h : k2 = k
    · simp [aremove, h, ih]
    · simp [aremove, h, alookup, ih]

/-- With distinct keys, every entry of `aset k v l` carrying key `k` holds
exactly the value `v`. -/
theorem mem_aset_eq_of_nodup {α : Type} (k : String) (v : α) (l : List (String × α))
    (hnd : (l.map Prod.fst).Nodup) :
    ∀ p ∈ aset k v l, p.1 = k → p.2 = v := by
  induction l with
  | nil =>
    intro p hp _
    simp [aset] at hp
    simp [hp]
  | cons q t ih =>
    obtain ⟨k2, v2⟩ := q
    simp only [List.map_cons, List.nodup_cons] at hnd
    intro p hp hk
    by_cases h : k2 = k
    · subst h
      simp only [aset, if_pos rfl] at hp
      rcases List.mem_cons.mp hp with rfl | hmem
      · rfl
      · exact absurd (hk ▸ List.mem_map_of_mem Prod.fst hmem) hnd.1
    · simp only [aset, if_neg h] at hp
      rcases List.mem_cons.mp hp with rfl | hmem
      · exact absurd hk h
      · exact ih hnd.2 p hmem hk

/-- When every entry of the article being rescored already carries the new
score on disk, the substituting scan agrees with a from-scratch
recomputation. -/
theorem scanAuthorArticles_eq_recompute (l : List (String × Summary))
    (aid artId : String) (ns : Rat)
    (h : ∀ p ∈ l, p.1 = artId → p.2.articleScore = ns) :
    scanAuthorArticles l aid artId ns = recomputeAuthorAggregate l aid := by
  unfold scanAuthorArticles recomputeAuthorAggregate
  refine List.foldl_ext _ _ _ ?_
  intro acc p hp
  by_cases hart : p.1 = artId
  · simp [hart, h p hp hart]
  · simp [hart]

/-- The shadow-map merge of the useful increment touches only the
`counts/article` singleton. -/
theorem usefulShadowStep_articleSummaries (id : String) (s : DB) :
    (usefulShadowStep id s).articleSummaries = s.articleSummaries := by
  unfold usefulShadowStep; cases s.articleCounts <;> rfl

theorem usefulShadowStep_authorCounts (id : String) (s : DB) :
    (usefulShadowStep id s).authorCounts = s.authorCounts := by
  unfold usefulShadowStep; cases s.articleCounts <;> rfl

theorem usefulShadowStep_now (id : String) (s : DB) :
    (usefulShadowStep id s).now = s.now := by
  unfold usefulShadowStep; cases s.articleCounts <;> rfl

theorem likeShadowStep_articleSummaries (id : String) (s : DB) :
    (likeShadowStep id s).articleSummaries = s.articleSummaries := by
  unfold likeShadowStep; cases s.articleCounts <;> rfl

theorem likeShadowStep_authorCounts (id : String) (s : DB) :
    (likeShadowStep id s).authorCounts = s.authorCounts := by
  unfold likeShadowStep; cases s.articleCounts <;> rfl

theorem likeShadowStep_now (id : String) (s : DB) :
    (likeShadowStep id s).now = s.now := by
  unfold likeShadowStep; cases s.articleCounts <;> rfl

theorem dislikeShadowStep_articleSummaries (id : String) (s : DB) :
    (dislikeShadowStep id s).articleSummaries = s.articleSummaries := by
  unfold dislikeShadowStep; cases s.articleCounts <;> rfl

theorem dislikeShadowStep_authorCounts (id : String) (s : DB) :
    (dislikeShadowStep id s).authorCounts = s.authorCounts := by
  unfold dislikeShadowStep; cases s.articleCounts <;> rfl

/-- The final author-counts merge touches only the `counts/author`
singleton. -/
theorem usefulAuthorMergeStep_articleSummaries (id aid : String) (s : DB) :
    (usefulAuthorMergeStep id aid s).articleSummaries = s.articleSummaries := by
  unfold usefulAuthorMergeStep; cases s.authorCounts <;> rfl

theorem likeAuthorMergeStep_articleSummaries (id aid : String) (s : DB) :
    (likeAuthorMergeStep id aid s).articleSummaries = s.articleSummaries := by
  unfold likeAuthorMergeStep; cases s.authorCounts <;> rfl

/-- The incremental fold on creation touches only the `counts/author`
singleton. -/
theorem updateAuthorScoreOnArticleCreate_articleSummaries (aid : String)
    (sc : Rat) (s : DB) :
    (updateAuthorScoreOnArticleCreate aid sc s).articleSummaries = s.articleSummaries := by
  unfold updateAuthorScoreOnArticleCreate; cases s.authorCounts <;> rfl

theorem updateAuthorScoreOnArticleCreate_wikiArticles (aid : String)
    (sc : Rat) (s : DB) :
    (updateAuthorScoreOnArticleCreate aid sc s).wikiArticles = s.wikiArticles := by
  unfold updateAuthorScoreOnArticleCreate; cases s.authorCounts <;> rfl

/-- Claim C1: when the Content Store write succeeds and the following
Summary Store write fails, `createArticle` deletes the just-written main
record and surfaces the error, so the Content Store holds no record for the
new id and the Summary Store is untouched; when the Content Store write
itself fails, the whole state is unchanged — in particular no Summary Store
write is attempted. -/
theorem createArticle_compensation (input : ArticleInput) (s : DB) :
    ((createArticle calculateArticleScore ⟨false, true, false, false, false, false, false⟩ input s).2
        = .error .summaryWriteFailed ∧
      alookup (createArticle calculateArticleScore ⟨false, true, false, false, false, false, false⟩ input s).1.wikiArticles
        (genId s.nextId) = none ∧
      (createArticle calculateArticleScore ⟨false, true, false, false, false, false, false⟩ input s).1.articleSummaries
        = s.articleSummaries) ∧
    createArticle calculateArticleScore ⟨true, false, false, false, false, false, false⟩ input s
      = (s, .error .mainWriteFailed) := by
  refine ⟨⟨rfl, ?_, rfl⟩, rfl⟩
  exact alookup_aremove_self _ _

/-- Claim C3 (amended): on the all-success schedule, `createArticle`
returns the fresh id, writes a Content Store record carrying exactly the
non-rating input fields (the stored record has no rating fields at all:
they are stripped before the write), and writes the summary with counters
equal to the rating counts carried by the INPUT (defaulted to zero when
absent) and with `articleScore` computed by the score function from those
same input counts. Only for inputs whose rating counts are all zero does
this coincide with the all-zero counters and the zero-counts score that the
original claim promised for every valid input. -/
theorem createArticle_inputCounts (input : ArticleInput) (s : DB) :
    (createArticle calculateArticleScore noFail input s).2 = .ok (genId s.nextId) ∧
    alookup (createArticle calculateArticleScore noFail input s).1.wikiArticles (genId s.nextId) =
      some { title := input.title, description := input.description,
             content := input.content, tags := input.tags,
             author := input.author, authorId := input.authorId,
             imageUrl := input.imageUrl, imageId := input.imageId,
             deleteUrl := input.deleteUrl, date := input.date.getD s.now,
             lastUpdated := s.now } ∧
    alookup (createArticle calculateArticleScore noFail input s).1.articleSummaries (genId s.nextId) =
      some { id := genId s.nextId, title := input.title,
             description := input.description, tags := input.tags,
             author := input.author, authorId := input.authorId,
             imageUrl := input.imageUrl, date := input.date.getD s.now,
             lastUpdated := s.now, usefulCount := input.usefulCount,
             likeCount := input.likeCount,
             dislikeCount := input.dislikeCount.getD 0,
             articleScore := calculateArticleScore input.content input.likeCount
               input.usefulCount (input.dislikeCount.getD 0) } := by
  refine ⟨rfl, ?_, ?_⟩ <;>
    rcases hac : s.authorCounts with _ | d <;>
      simp [createArticle, updateAuthorScoreOnArticleCreate, noFail, hac,
        alookup_aset_self]

/-- Claim C3 counterexample: for the valid input `demoInput`, which carries
`likeCount = 1`, the summary written by `createArticle` has `likeCount = 1`
(not zero) and an `articleScore` different from the zero-counts score, so
the claim as stated fails. -/
theorem createArticle_zeroCounters_counterexample :
    ((alookup (createArticle demoScore noFail demoInput demoEmptyState).1.articleSummaries
        (genId 0)).map Summary.likeCount ≠ some 0) ∧
    ((alookup (createArticle demoScore noFail demoInput demoEmptyState).1.articleSummaries
        (genId 0)).map Summary.articleScore ≠ some (demoScore demoInput.content 0 0 0)) := by
  refine ⟨?_, ?_⟩ <;> decide

/-- Claim C5: `incrementDislikeCount` without the admin flag always fails
with the permission error and performs no write at all: the final state —
both stores, both aggregate singletons and the cache — is exactly the
initial one. -/
theorem incrementDislike_denied_pure (s : DB) (id : String) :
    incrementDislikeCount calculateArticleScore id false s
      = (s, .error .permissionDenied) := rfl

/-- Claim C6: `updateArticle` on an id with no Content Store record fails
with not-found and leaves the whole state (both stores and both aggregate
singletons) unchanged. -/
theorem updateArticle_missing_notFound (s : DB) (id : String) (u : UpdateData)
    (h : alookup s.wikiArticles id = none) :
    updateArticle calculateArticleScore id u s = (s, .error .notFound) := by
  simp [updateArticle, getArticleById, h]

/-- Witness for C6 at a concrete missing id. -/
theorem updateArticle_missing_notFound_witness :
    alookup demoEmptyState.wikiArticles "art" = none ∧
    updateArticle demoScore "art" demoUpdate demoEmptyState
      = (demoEmptyState, .error .notFound) :=
  ⟨rfl, updateArticle_missing_notFound demoScore demoEmptyState "art" demoUpdate rfl⟩

/-- Claim C8: with the summary delete failing, `deleteArticle` still
succeeds, the Content Store record is gone, the summary record survives
untouched, and the surviving summary no longer surfaces the article in the
`getAllArticles` listing (each listed id must resolve in the main DB). -/
theorem deleteArticle_bestEffort (s : DB) (id : String) :
    (deleteArticle ⟨false, false, false, false, true, false, false⟩ id s).2 = .ok () ∧
    alookup (deleteArticle ⟨false, false, false, false, true, false, false⟩ id s).1.wikiArticles id = none ∧
    (deleteArticle ⟨false, false, false, false, true, false, false⟩ id s).1.articleSummaries
      = s.articleSummaries ∧
    ∀ p ∈ getAllArticles (deleteArticle ⟨false, false, false, false, true, false, false⟩ id s).1,
      p.1 ≠ id := by
  refine ⟨rfl, alookup_aremove_self _ _, rfl, ?_⟩
  intro p hp hpid
  rw [getAllArticles] at hp
  rcases List.mem_filterMap.mp hp with ⟨q, hq, hfq⟩
  rcases Option.map_eq_some'.mp hfq with ⟨fa, hget, hpe⟩
  have hq1 : q.1 = id := by rw [← hpe] at hpid; exact hpid
  rw [hq1] at hget
  have hnone : getArticleById
      (deleteArticle ⟨false, false, false, false, true, false, false⟩ id s).1 id = none := by
    unfold getArticleById
    rw [show (deleteArticle ⟨false, false, false, false, true, false, false⟩ id s).1.wikiArticles
        = aremove id s.wikiArticles from rfl]
    rw [alookup_aremove_self]
  rw [hnone] at hget
  exact Option.noConfusion hget

/-- Witness for C8 at a concrete article. -/
theorem deleteArticle_bestEffort_witness :
    (deleteArticle ⟨false, false, false, false, true, false, false⟩ "art" demoState).2 = .ok () ∧
    alookup (deleteArticle ⟨false, false, false, false, true, false, false⟩ "art" demoState).1.wikiArticles "art" = none ∧
    (deleteArticle ⟨false, false, false, false, true, false, false⟩ "art" demoState).1.articleSummaries
      = demoState.articleSummaries ∧
    ∀ p ∈ getAllArticles (deleteArticle ⟨false, false, false, false, true, false, false⟩ "art" demoState).1,
      p.1 ≠ "art" :=
  deleteArticle_bestEffort demoState "art"

/-- Claim C9: the stored author aggregate has no average field; the view
returned by `getAuthorCountById` always carries the average derived from
the stored sum and count — zero whenever the count is zero — and both an
absent `counts/author` singleton and an absent author entry produce the
all-zero view. -/
theorem authorAverage_derived (cfg : FailCfg) (s : DB) (aid : String) :
    ((getAuthorCountById cfg s aid).averageScore =
      if (getAuthorCountById cfg s aid).articleCount = 0 then 0
      else (getAuthorCountById cfg s aid).articleScoreSum
        / ((getAuthorCountById cfg s aid).articleCount : Rat)) ∧
    (s.authorCounts = none → getAuthorCountById cfg s aid = ⟨0, 0, 0, 0, 0⟩) ∧
    (∀ d : CountsDoc AuthorCountsEntry, s.authorCounts = some d →
      alookup d.counts aid = none → getAuthorCountById cfg s aid = ⟨0, 0, 0, 0, 0⟩) := by
  cases hf : cfg.authorCountsReadFails with
  | true =>
    refine ⟨?_, ?_, ?_⟩ <;>
      simp [getAuthorCountById, getAuthorCountByIdRaw, hf]
  | false =>
    rcases hd : s.authorCounts with _ | d
    · refine ⟨?_, ?_, ?_⟩ <;>
        simp [getAuthorCountById, getAuthorCountByIdRaw, hf, hd]
    · rcases hl : alookup d.counts aid with _ | ad
      · refine ⟨?_, ?_, ?_⟩
        · simp [getAuthorCountById, getAuthorCountByIdRaw, hf, hd, hl]
        · intro h; exact Option.noConfusion h
        · intro d2 hd2 hl2
          simp [getAuthorCountById, getAuthorCountByIdRaw, hf, hd, hl]
      · refine ⟨?_, ?_, ?_⟩
        · simp only [getAuthorCountById, getAuthorCountByIdRaw, hf,
            Bool.false_eq_true, if_false, hd, hl, Option.getD_some]
          rcases hc : ad.articleCount with _ | n <;> simp [hc]
        · intro h; exact Option.noConfusion h
        · intro d2 hd2 hl2
          injection hd2 with he
          subst he
          rw [hl] at hl2
          exact Option.noConfusion hl2

/-- Witness for C9 at a concrete state. -/
theorem authorAverage_derived_witness :
    ((getAuthorCountById noFail demoEmptyState "a").averageScore =
      if (getAuthorCountById noFail demoEmptyState "a").articleCount = 0 then 0
      else (getAuthorCountById noFail demoEmptyState "a").articleScoreSum
        / ((getAuthorCountById noFail demoEmptyState "a").articleCount : Rat)) ∧
    demoEmptyState.authorCounts = none ∧
    getAuthorCountById noFail demoEmptyState "a" = ⟨0, 0, 0, 0, 0⟩ := by
  have h := authorAverage_derived noFail demoEmptyState "a"
  exact ⟨h.1, rfl, h.2.1 rfl⟩

/-- Claim C10: the three rating reads never surface an error — the catch
wrappers `getArticleRatings`, `getArticleCountById` and
`getAuthorCountById` are total — and an absent record, an absent aggregate
entry or a failing store read all collapse to the all-zero counts object,
indistinguishable from genuinely zero counters. -/
theorem ratingReads_never_error (cfg : FailCfg) (s : DB) (id aid : String) :
    ((cfg.summaryReadFails = true ∨ alookup s.articleSummaries id = none) →
      getArticleRatings cfg s id = ⟨0, 0⟩) ∧
    ((cfg.summaryReadFails = true ∨ alookup s.articleSummaries id = none) →
      getArticleCountById cfg s id = ⟨0, 0, 0⟩) ∧
    ((cfg.authorCountsReadFails = true ∨ s.authorCounts = none ∨
        ∃ d : CountsDoc AuthorCountsEntry, s.authorCounts = some d ∧
          alookup d.counts aid = none) →
      getAuthorCountById cfg s aid = ⟨0, 0, 0, 0, 0⟩) := by
  refine ⟨?_, ?_, ?_⟩
  · rintro (hf | hn)
    · simp [getArticleRatings, getArticleRatingsRaw, hf]
    · cases hsf : cfg.summaryReadFails <;>
        simp [getArticleRatings, getArticleRatingsRaw, hsf, hn]
  · rintro (hf | hn)
    · simp [getArticleCountById, getArticleCountByIdRaw, hf]
    · cases hsf : cfg.summaryReadFails <;>
        simp [getArticleCountById, getArticleCountByIdRaw, hsf, hn]
  · rintro (hf | hn | ⟨d, hd, hl⟩)
    · simp [getAuthorCountById, getAuthorCountByIdRaw, hf]
    · cases hsf : cfg.authorCountsReadFails <;>
        simp [getAuthorCountById, getAuthorCountByIdRaw, hsf, hn]
    · cases hsf : cfg.authorCountsReadFails <;>
        simp [getAuthorCountById, getAuthorCountByIdRaw, hsf, hd, hl]

/-- Claim C7: updating an existing article whose summary is present
succeeds; the Content Store receives the supplied fields minus every rating
field, with a refreshed `lastUpdated`; the summary keeps its identity
fields and all three counters unchanged, receives exactly the supplied
fields among title, description, tags, author and imageUrl, the refreshed
`lastUpdated`, and an `articleScore` recomputed from the effective new
content (the supplied content if present and non-empty, else the existing
one) together with the counters currently stored in the summary; every
other id in both stores is untouched. When no summary-relevant field is
supplied, the record equation below collapses to a summary write that only
refreshes `lastUpdated` and the score. -/
theorem updateArticle_existing (a : Article) (sum : Summary) (s : DB)
    (id : String) (u : UpdateData)
    (hMain : alookup s.wikiArticles id = some a)
    (hSum : alookup s.articleSummaries id = some sum) :
    (updateArticle calculateArticleScore id u s).2 = .ok () ∧
    alookup (updateArticle calculateArticleScore id u s).1.wikiArticles id =
      some { title := u.title.getD a.title,
             description := u.description.getD a.description,
             content := u.content.getD a.content, tags := u.tags.getD a.tags,
             author := u.author.getD a.author,
             authorId := u.authorId.getD a.authorId,
             imageUrl := match u.imageUrl with | some v => some v | none => a.imageUrl,
             imageId := match u.imageId with | some v => some v | none => a.imageId,
             deleteUrl := match u.deleteUrl with | some v => some v | none => a.deleteUrl,
             date := u.date.getD a.date, lastUpdated := s.now } ∧
    alookup (updateArticle calculateArticleScore id u s).1.articleSummaries id =
      some { id := sum.id, title := u.title.getD sum.title,
             description := u.description.getD sum.description,
             tags := u.tags.getD sum.tags, author := u.author.getD sum.author,
             authorId := sum.authorId,
             imageUrl := match u.imageUrl with | some v => some v | none => sum.imageUrl,
             date := sum.date, lastUpdated := s.now,
             usefulCount := sum.usefulCount, likeCount := sum.likeCount,
             dislikeCount := sum.dislikeCount,
             articleScore := calculateArticleScore (effectiveNewContent u a.content)
               sum.likeCount sum.usefulCount sum.dislikeCount } ∧
    ∀ k, k ≠ id →
      alookup (updateArticle calculateArticleScore id u s).1.wikiArticles k
          = alookup s.wikiArticles k ∧
      alookup (updateArticle calculateArticleScore id u s).1.articleSummaries k
          = alookup s.articleSummaries k := by
  have hview : getArticleById s id
      = some ⟨a, some sum.likeCount, some sum.usefulCount, some sum.dislikeCount,
          some sum.articleScore⟩ := by
    simp [getArticleById, hMain, hSum]
  have hg : 2 + suppliedRelevantCount u > 1 := by omega
  have hok : (updateArticle calculateArticleScore id u s).2 = .ok () := by
    by_cases hA : a.authorId = "" <;>
      simp [updateArticle, hview, hSum, hg, hA]
  have hmain2 : (updateArticle calculateArticleScore id u s).1.wikiArticles
      = aset id (applyMainUpdate a u s.now) s.wikiArticles := by
    by_cases hA : a.authorId = "" <;>
      simp [updateArticle, hview, hSum, hg, hA, updateAuthorScore]
  have hsum2 : (updateArticle calculateArticleScore id u s).1.articleSummaries
      = aset id (applySummaryUpdate sum u s.now
          (calculateArticleScore (effectiveNewContent u a.content) sum.likeCount
            sum.usefulCount sum.dislikeCount)) s.articleSummaries := by
    by_cases hA : a.authorId = "" <;>
      simp [updateArticle, hview, hSum, hg, hA, updateAuthorScore]
  refine ⟨hok, ?_, ?_, ?_⟩
  · rw [hmain2, alookup_aset_self]; rfl
  · rw [hsum2, alookup_aset_self]; rfl
  · intro k hk
    rw [hmain2, hsum2]
    exact ⟨alookup_aset_ne _ _ _ _ (Ne.symm hk), alookup_aset_ne _ _ _ _ (Ne.symm hk)⟩

/-- Witness for C7 at a concrete article and content-only update. -/
theorem updateArticle_existing_witness :
    alookup demoState.wikiArticles "art" = some demoArticle ∧
    alookup demoState.articleSummaries "art" = some demoSummary ∧
    ((updateArticle demoScore "art" demoUpdate demoState).2 = .ok () ∧
    alookup (updateArticle demoScore "art" demoUpdate demoState).1.wikiArticles "art" =
      some { title := demoUpdate.title.getD demoArticle.title,
             description := demoUpdate.description.getD demoArticle.description,
             content := demoUpdate.content.getD demoArticle.content,
             tags := demoUpdate.tags.getD demoArticle.tags,
             author := demoUpdate.author.getD demoArticle.author,
             authorId := demoUpdate.authorId.getD demoArticle.authorId,
             imageUrl := match demoUpdate.imageUrl with | some v => some v | none => demoArticle.imageUrl,
             imageId := match demoUpdate.imageId with | some v => some v | none => demoArticle.imageId,
             deleteUrl := match demoUpdate.deleteUrl with | some v => some v | none => demoArticle.deleteUrl,
             date := demoUpdate.date.getD demoArticle.date, lastUpdated := demoState.now } ∧
    alookup (updateArticle demoScore "art" demoUpdate demoState).1.articleSummaries "art" =
      some { id := demoSummary.id, title := demoUpdate.title.getD demoSummary.title,
             description := demoUpdate.description.getD demoSummary.description,
             tags := demoUpdate.tags.getD demoSummary.tags,
             author := demoUpdate.author.getD demoSummary.author,
             authorId := demoSummary.authorId,
             imageUrl := match demoUpdate.imageUrl with | some v => some v | none => demoSummary.imageUrl,
             date := demoSummary.date, lastUpdated := demoState.now,
             usefulCount := demoSummary.usefulCount, likeCount := demoSummary.likeCount,
             dislikeCount := demoSummary.dislikeCount,
             articleScore := demoScore (effectiveNewContent demoUpdate demoArticle.content)
               demoSummary.likeCount demoSummary.usefulCount demoSummary.dislikeCount } ∧
    ∀ k, k ≠ "art" →
      alookup (updateArticle demoScore "art" demoUpdate demoState).1.wikiArticles k
          = alookup demoState.wikiArticles k ∧
      alookup (updateArticle demoScore "art" demoUpdate demoState).1.articleSummaries k
          = alookup demoState.articleSummaries k) :=
  ⟨rfl, rfl,
    updateArticle_existing demoScore demoArticle demoSummary demoState "art" demoUpdate rfl rfl⟩

/-- Claim C4: each single increment — like, useful, or dislike with the
admin flag — on an article present in both stores succeeds and rewrites the
summary record so that exactly the targeted counter moves by one while, in
the same write, `articleScore` is overwritten with the score function
applied to the article content, the bumped counter and the other two
counters unchanged; every other summary record is untouched. -/
theorem increment_changes_only_target (a : Article) (sum : Summary) (s : DB)
    (id : String)
    (hMain : alookup s.wikiArticles id = some a) (hA : a.authorId ≠ "")
    (hSum : alookup s.articleSummaries id = some sum) :
    ((incrementLikeCount calculateArticleScore id s).2 = .ok () ∧
      alookup (incrementLikeCount calculateArticleScore id s).1.articleSummaries id =
        some { sum with
               likeCount := sum.likeCount + 1,
               articleScore := calculateArticleScore a.content (sum.likeCount + 1) sum.usefulCount sum.dislikeCount } ∧
      ∀ k, k ≠ id →
        alookup (incrementLikeCount calculateArticleScore id s).1.articleSummaries k
          = alookup s.articleSummaries k) ∧
    ((incrementUsefulCount calculateArticleScore id s).2 = .ok () ∧
      alookup (incrementUsefulCount calculateArticleScore id s).1.articleSummaries id =
        some { sum with
               usefulCount := sum.usefulCount + 1,
               articleScore := calculateArticleScore a.content sum.likeCount (sum.usefulCount + 1) sum.dislikeCount } ∧
      ∀ k, k ≠ id →
        alookup (incrementUsefulCount calculateArticleScore id s).1.articleSummaries k
          = alookup s.articleSummaries k) ∧
    ((incrementDislikeCount calculateArticleScore id true s).2 = .ok () ∧
      alookup (incrementDislikeCount calculateArticleScore id true s).1.articleSummaries id =
        some { sum with
               dislikeCount := sum.dislikeCount + 1,
               articleScore := calculateArticleScore a.content sum.likeCount sum.usefulCount (sum.dislikeCount + 1) } ∧
      ∀ k, k ≠ id →
        alookup (incrementDislikeCount calculateArticleScore id true s).1.articleSummaries k
          = alookup s.articleSummaries k) := by
  have hview : getArticleById s id
      = some ⟨a, some sum.likeCount, some sum.usefulCount, some sum.dislikeCount,
          some sum.articleScore⟩ := by
    simp [getArticleById, hMain, hSum]
  have hlike : (incrementLikeCount calculateArticleScore id s).1.articleSummaries
      = aset id { sum with
          likeCount := sum.likeCount + 1,
          articleScore := calculateArticleScore a.content (sum.likeCount + 1) sum.usefulCount sum.dislikeCount } s.articleSummaries := by
    simp [incrementLikeCount, hview, hSum, hA, cacheDelete,
      likeAuthorMergeStep_articleSummaries, likeShadowStep_articleSummaries,
      cacheUpdateArticleCount, updateAuthorScore]
  have huse : (incrementUsefulCount calculateArticleScore id s).1.articleSummaries
      = aset id { sum with
          usefulCount := sum.usefulCount + 1,
          articleScore := calculateArticleScore a.content sum.likeCount (sum.usefulCount + 1) sum.dislikeCount } s.articleSummaries := by
    simp [incrementUsefulCount, hview, hSum, hA, cacheDelete,
      usefulAuthorMergeStep_articleSummaries, usefulShadowStep_articleSummaries,
      cacheUpdateArticleCount, updateAuthorScore]
  have hdis : (incrementDislikeCount calculateArticleScore id true s).1.articleSummaries
      = aset id { sum with
          dislikeCount := sum.dislikeCount + 1,
          articleScore := calculateArticleScore a.content sum.likeCount sum.usefulCount (sum.dislikeCount + 1) } s.articleSummaries := by
    simp [incrementDislikeCount, hview, hSum, hA, cacheDelete,
      dislikeShadowStep_articleSummaries, updateAuthorScore]
  refine ⟨⟨?_, ?_, ?_⟩, ⟨?_, ?_, ?_⟩, ⟨?_, ?_, ?_⟩⟩
  · simp [incrementLikeCount, hview, hSum, hA]
  · rw [hlike, alookup_aset_self]
  · intro k hk; rw [hlike]; exact alookup_aset_ne _ _ _ _ (Ne.symm hk)
  · simp [incrementUsefulCount, hview, hSum, hA]
  · rw [huse, alookup_aset_self]
  · intro k hk; rw [huse]; exact alookup_aset_ne _ _ _ _ (Ne.symm hk)
  · simp [incrementDislikeCount, hview, hSum, hA]
  · rw [hdis, alookup_aset_self]
  · intro k hk; rw [hdis]; exact alookup_aset_ne _ _ _ _ (Ne.symm hk)

/-- Witness for C4 at a concrete article. -/
theorem increment_changes_only_target_witness :
    alookup demoState.wikiArticles "art" = some demoArticle ∧
    demoArticle.authorId ≠ "" ∧
    alookup demoState.articleSummaries "art" = some demoSummary ∧
    (((incrementLikeCount demoScore "art" demoState).2 = .ok () ∧
      alookup (incrementLikeCount demoScore "art" demoState).1.articleSummaries "art" =
        some { demoSummary with
               likeCount := demoSummary.likeCount + 1,
               articleScore := demoScore demoArticle.content (demoSummary.likeCount + 1) demoSummary.usefulCount demoSummary.dislikeCount } ∧
      ∀ k, k ≠ "art" →
        alookup (incrementLikeCount demoScore "art" demoState).1.articleSummaries k
          = alookup demoState.articleSummaries k) ∧
    ((incrementUsefulCount demoScore "art" demoState).2 = .ok () ∧
      alookup (incrementUsefulCount demoScore "art" demoState).1.articleSummaries "art" =
        some { demoSummary with
               usefulCount := demoSummary.usefulCount + 1,
               articleScore := demoScore demoArticle.content demoSummary.likeCount (demoSummary.usefulCount + 1) demoSummary.dislikeCount } ∧
      ∀ k, k ≠ "art" →
        alookup (incrementUsefulCount demoScore "art" demoState).1.articleSummaries k
          = alookup demoState.articleSummaries k) ∧
    ((incrementDislikeCount demoScore "art" true demoState).2 = .ok () ∧
      alookup (incrementDislikeCount demoScore "art" true demoState).1.articleSummaries "art" =
        some { demoSummary with
               dislikeCount := demoSummary.dislikeCount + 1,
               articleScore := demoScore demoArticle.content demoSummary.likeCount demoSummary.usefulCount (demoSummary.dislikeCount + 1) } ∧
      ∀ k, k ≠ "art" →
        alookup (incrementDislikeCount demoScore "art" true demoState).1.articleSummaries k
          = alookup demoState.articleSummaries k)) :=
  ⟨rfl, by decide, rfl,
    increment_changes_only_target demoScore demoArticle demoSummary demoState "art"
      rfl (by decide) rfl⟩

/-- Claim C2 counterexample: in `demoState` (author `a`, a single article
with usefulCount 3), after `incrementUsefulCount` completes, the stored
author aggregate carries usefulCount 5 — the full recomputation already
counted the incremented value 4 and the final author merge bumps it once
more — while the from-scratch recomputation over the final summaries yields
4, so the claimed equality of stored and recomputed aggregates fails. -/
theorem incrementUseful_selfHealing_counterexample :
    ((incrementUsefulCount demoScore "art" demoState).1.authorCounts.map
        (fun d => (alookup d.counts "a").map AuthorCountsEntry.usefulCount))
      ≠ some (some (recomputeAuthorAggregate
          (incrementUsefulCount demoScore "art" demoState).1.articleSummaries
          "a").usefulCount) := by
  decide

/-- Claim C2 (amended): after a rating change or content update completes
on an article present in both stores (with distinct summary keys), the
stored `counts/author` entry for the author compares to a from-scratch
recomputation over the final summaries as follows. For the useful (resp.
like) increment, the stored entry agrees with the recomputation on
`articleScoreSum`, `articleCount` and the non-targeted counter, but its
`usefulCount` (resp. `likeCount`) exceeds the recomputed sum by exactly
one: the operation first recomputes the aggregate (already seeing the
incremented counter and the new score) and the final author-counts merge
then bumps the targeted counter once more on top of it. For the admin
dislike increment and for a content update through `updateArticle` — which
run no such merge after the recomputation — the stored entry equals the
from-scratch recomputation exactly, as the original claim stated. -/
theorem authorAggregate_after_rating_change (a : Article) (sum : Summary)
    (s : DB) (id : String) (u : UpdateData)
    (hnd : (s.articleSummaries.map Prod.fst).Nodup)
    (hMain : alookup s.wikiArticles id = some a) (hA : a.authorId ≠ "")
    (hSum : alookup s.articleSummaries id = some sum) :
    ((incrementUsefulCount calculateArticleScore id s).2 = .ok () ∧
      ∃ d : CountsDoc AuthorCountsEntry,
        (incrementUsefulCount calculateArticleScore id s).1.authorCounts = some d ∧
        alookup d.counts a.authorId = some
          { recomputeAuthorAggregate
              (incrementUsefulCount calculateArticleScore id s).1.articleSummaries
              a.authorId with
            usefulCount := (recomputeAuthorAggregate
              (incrementUsefulCount calculateArticleScore id s).1.articleSummaries
              a.authorId).usefulCount + 1 }) ∧
    ((incrementLikeCount calculateArticleScore id s).2 = .ok () ∧
      ∃ d : CountsDoc AuthorCountsEntry,
        (incrementLikeCount calculateArticleScore id s).1.authorCounts = some d ∧
        alookup d.counts a.authorId = some
          { recomputeAuthorAggregate
              (incrementLikeCount calculateArticleScore id s).1.articleSummaries
              a.authorId with
            likeCount := (recomputeAuthorAggregate
              (incrementLikeCount calculateArticleScore id s).1.articleSummaries
              a.authorId).likeCount + 1 }) ∧
    ((incrementDislikeCount calculateArticleScore id true s).2 = .ok () ∧
      ∃ d : CountsDoc AuthorCountsEntry,
        (incrementDislikeCount calculateArticleScore id true s).1.authorCounts = some d ∧
        alookup d.counts a.authorId = some
          (recomputeAuthorAggregate
            (incrementDislikeCount calculateArticleScore id true s).1.articleSummaries
            a.authorId)) ∧
    ((updateArticle calculateArticleScore id u s).2 = .ok () ∧
      ∃ d : CountsDoc AuthorCountsEntry,
        (updateArticle calculateArticleScore id u s).1.authorCounts = some d ∧
        alookup d.counts a.authorId = some
          (recomputeAuthorAggregate
            (updateArticle calculateArticleScore id u s).1.articleSummaries
            a.authorId)) := by
  have hview : getArticleById s id
      = some ⟨a, some sum.likeCount, some sum.usefulCount, some sum.dislikeCount,
          some sum.articleScore⟩ := by
    simp [getArticleById, hMain, hSum]
  have hg : 2 + suppliedRelevantCount u > 1 := by omega
  refine ⟨⟨?_, ?_⟩, ⟨?_, ?_⟩, ⟨?_, ?_⟩, ⟨?_, ?_⟩⟩
  · simp [incrementUsefulCount, hview, hSum, hA]
  · rcases hac : s.authorCounts with _ | d0 <;>
    · simp only [incrementUsefulCount, hview, hSum, hA, Option.some.injEq,
        updateAuthorScore, cacheUpdateArticleCount, cacheDelete,
        usefulShadowStep_authorCounts, usefulShadowStep_articleSummaries,
        usefulShadowStep_now, usefulAuthorMergeStep, hac, alookup_aset_self,
        Option.getD_some, if_false, ite_false]
      refine ⟨_, rfl, ?_⟩
      rw [alookup_aset_self, scanAuthorArticles_eq_recompute]
      intro p hp h1
      rw [mem_aset_eq_of_nodup _ _ _ hnd p hp h1]
  · simp [incrementLikeCount, hview, hSum, hA]
  · rcases hac : s.authorCounts with _ | d0 <;>
    · simp only [incrementLikeCount, hview, hSum, hA, Option.some.injEq,
        updateAuthorScore, cacheUpdateArticleCount, cacheDelete,
        likeShadowStep_authorCounts, likeShadowStep_articleSummaries,
        likeShadowStep_now, likeAuthorMergeStep, hac, alookup_aset_self,
        Option.getD_some, if_false, ite_false]
      refine ⟨_, rfl, ?_⟩
      rw [alookup_aset_self, scanAuthorArticles_eq_recompute]
      intro p hp h1
      rw [mem_aset_eq_of_nodup _ _ _ hnd p hp h1]
  · simp [incrementDislikeCount, hview, hSum, hA]
  · rcases hac : s.authorCounts with _ | d0 <;>
    · simp only [incrementDislikeCount, hview, hSum, hA, Option.some.injEq,
        updateAuthorScore, cacheDelete, dislikeShadowStep_authorCounts,
        dislikeShadowStep_articleSummaries, hac, alookup_aset_self,
        Option.getD_some, if_false, ite_false, Bool.not_true, Bool.false_eq_true]
      refine ⟨_, rfl, ?_⟩
      rw [alookup_aset_self, scanAuthorArticles_eq_recompute]
      intro p hp h1
      rw [mem_aset_eq_of_nodup _ _ _ hnd p hp h1]
  · simp [updateArticle, hview, hSum, hg, hA]
  · rcases hac : s.authorCounts with _ | d0 <;>
    · simp only [updateArticle, hview, hSum, hg, hA, updateAuthorScore, hac,
        alookup_aset_self, Option.some.injEq, Option.getD_some,
        Option.map_some', if_false, ite_false, if_true, ite_true]
      refine ⟨_, rfl, ?_⟩
      rw [alookup_aset_self, scanAuthorArticles_eq_recompute]
      intro p hp h1
      rw [mem_aset_eq_of_nodup _ _ _ hnd p hp h1]
      rfl

/-- Witness for the amended C2 at a concrete article and a content-only
update payload. -/
theorem authorAggregate_after_rating_change_witness :
    (demoState.articleSummaries.map Prod.fst).Nodup ∧
    alookup demoState.wikiArticles "art" = some demoArticle ∧
    demoArticle.authorId ≠ "" ∧
    alookup demoState.articleSummaries "art" = some demoSummary ∧
    (((incrementUsefulCount demoScore "art" demoState).2 = .ok () ∧
      ∃ d : CountsDoc AuthorCountsEntry,
        (incrementUsefulCount demoScore "art" demoState).1.authorCounts = some d ∧
        alookup d.counts demoArticle.authorId = some
          { recomputeAuthorAggregate
              (incrementUsefulCount demoScore "art" demoState).1.articleSummaries
              demoArticle.authorId with
            usefulCount := (recomputeAuthorAggregate
              (incrementUsefulCount demoScore "art" demoState).1.articleSummaries
              demoArticle.authorId).usefulCount + 1 }) ∧
    ((incrementLikeCount demoScore "art" demoState).2 = .ok () ∧
      ∃ d : CountsDoc AuthorCountsEntry,
        (incrementLikeCount demoScore "art" demoState).1.authorCounts = some d ∧
        alookup d.counts demoArticle.authorId = some
          { recomputeAuthorAggregate
              (incrementLikeCount demoScore "art" demoState).1.articleSummaries
              demoArticle.authorId with
            likeCount := (recomputeAuthorAggregate
              (incrementLikeCount demoScore "art" demoState).1.articleSummaries
              demoArticle.authorId).likeCount + 1 }) ∧
    ((incrementDislikeCount demoScore "art" true demoState).2 = .ok () ∧
      ∃ d : CountsDoc AuthorCountsEntry,
        (incrementDislikeCount demoScore "art" true demoState).1.authorCounts = some d ∧
        alookup d.counts demoArticle.authorId = some
          (recomputeAuthorAggregate
            (incrementDislikeCount demoScore "art" true demoState).1.articleSummaries
            demoArticle.authorId)) ∧
    ((updateArticle demoScore "art" demoUpdate demoState).2 = .ok () ∧
      ∃ d : CountsDoc AuthorCountsEntry,
        (updateArticle demoScore "art" demoUpdate demoState).1.authorCounts = some d ∧
        alookup d.counts demoArticle.authorId = some
          (recomputeAuthorAggregate
            (updateArticle demoScore "art" demoUpdate demoState).1.articleSummaries
            demoArticle.authorId))) :=
  ⟨by decide, rfl, by decide, rfl,
    authorAggregate_after_rating_change demoScore demoArticle demoSummary demoState
      "art" demoUpdate (by decide) rfl (by decide) rfl⟩

/-- Witness for C10 at a concrete empty state. -/
theorem ratingReads_never_error_witness :
    alookup demoEmptyState.articleSummaries "art" = none ∧
    demoEmptyState.authorCounts = none ∧
    getArticleRatings noFail demoEmptyState "art" = ⟨0, 0⟩ ∧
    getArticleCountById noFail demoEmptyState "art" = ⟨0, 0, 0⟩ ∧
    getAuthorCountById noFail demoEmptyState "a" = ⟨0, 0, 0, 0, 0⟩ := by
  have h := ratingReads_never_error noFail demoEmptyState "art" "a"
  exact ⟨rfl, rfl, h.1 (Or.inr rfl), h.2.1 (Or.inr rfl), h.2.2 (Or.inr (Or.inl rfl))⟩

end EvasioNova
